import Mathlib

/-!
Shallow embedding of the `test-server` Python SDK
(`src/test_server_sdk/install.py` and `src/test_server_sdk/test_server_wrapper.py`).

External effects (network, filesystem, subprocess, hashing) are modelled as
explicit inputs; each function returns both its Python-level result
(`Except PyErr _` for code that can raise) and the on-disk / signal state the
claims are about.
-/

namespace TestServerSdk

/-- Python-level exceptions raised by the SDK code (install.py, test_server_wrapper.py). -/
inductive PyErr where
  | osError (msg : String)
  | valueError (msg : String)
  | requestsError (msg : String)
  | fileNotFoundError
  | yamlError
  | typeError (msg : String)
  | timeoutError (msg : String)
  | runtimeError (msg : String)
  | extractionError
deriving DecidableEq, Repr

/-- Python `s.startswith(p)`: `p` is a prefix of `s`, character by character. -/
def startswith (s p : String) : Bool := p.data.isPrefixOf s.data

/-- install.py line 28: `TEST_SERVER_VERSION = "v0.2.8"`. -/
def TEST_SERVER_VERSION : String := "v0.2.8"

/-- install.py line 31: `PROJECT_NAME = "test-server"`. -/
def PROJECT_NAME : String := "test-server"

/-- The tuple returned by `get_platform_details` (install.py line 69). -/
structure PlatformDetails where
  go_os : String
  go_arch : String
  archive_extension : String
  binary_name : String
deriving DecidableEq, Repr

/-- install.py lines 44-69, `get_platform_details`: branches on prefixes of
`sys.platform` and on `platform.machine()`, raising `OSError` for unsupported
platforms or architectures. -/
def get_platform_details (os_platform arch : String) : Except PyErr PlatformDetails := do
  let (go_os, archive_extension) ←
    if startswith os_platform "darwin" then pure ("Darwin", ".tar.gz")
    else if startswith os_platform "linux" then pure ("Linux", ".tar.gz")
    else if startswith os_platform "win32" then pure ("Windows", ".zip")
    else throw (PyErr.osError ("Unsupported platform: " ++ os_platform))
  let go_arch ←
    if arch = "x86_64" ∨ arch = "AMD64" then pure "x86_64"
    else if arch = "arm64" ∨ arch = "aarch64" then pure "arm64"
    else throw (PyErr.osError ("Unsupported architecture: " ++ arch))
  let binary_name := if go_os = "Windows" then PROJECT_NAME ++ ".exe" else PROJECT_NAME
  pure ⟨go_os, go_arch, archive_extension, binary_name⟩

/-- The arch branch of `get_platform_details` (install.py lines 61-66), with the
OS-dependent data already resolved; used to state the unfolding lemma `gpd_def`. -/
def arch_branch (go_os archive_extension arch bname : String) : Except PyErr PlatformDetails :=
  if arch = "x86_64" ∨ arch = "AMD64" then .ok ⟨go_os, "x86_64", archive_extension, bname⟩
  else if arch = "arm64" ∨ arch = "aarch64" then .ok ⟨go_os, "arm64", archive_extension, bname⟩
  else .error (PyErr.osError ("Unsupported architecture: " ++ arch))

/-- The checksum manifest loaded from checksums.json (install.py lines 34-41):
version string → (archive filename → hex digest string). -/
def Manifest : Type := List (String × List (String × String))

/-- install.py line 93: `ALL_EXPECTED_CHECKSUMS.get(version, {}).get(archive_name)`. -/
def manifestLookup (m : Manifest) (version archive_name : String) : Option String :=
  match m.lookup version with
  | none => none
  | some inner => inner.lookup archive_name

/-- Python truthiness test `not expected_checksum` (install.py line 94):
true for `None` and for the empty string. -/
def optStrFalsy : Option String → Bool
  | none => true
  | some s => s.isEmpty

/-- Result of `download_and_verify`: the Python-level outcome, plus whether the
archive file is still on disk when control leaves the function. -/
structure DownloadVerifyResult where
  result : Except PyErr Unit
  archive_on_disk : Bool

/-- install.py lines 81-106, `download_and_verify`.  The network outcome
(`download_ok`) and the SHA-256 hex digest of the downloaded bytes
(`actual_checksum`, the value `calculate_file_sha256` returns at line 97) are
inputs, since `requests` and `hashlib` are external.  Every `except` path
deletes the archive (lines 102-104) before re-raising. -/
def download_and_verify (manifest : Manifest) (download_ok : Bool)
    (actual_checksum : String) (version archive_name : String) : DownloadVerifyResult :=
  if !download_ok then
    ⟨.error (PyErr.requestsError ("Failed to download " ++ archive_name)), false⟩
  else
    let expected_checksum := manifestLookup manifest version archive_name
    if optStrFalsy expected_checksum then
      ⟨.error (PyErr.valueError
        ("Checksum for " ++ archive_name ++ " (version " ++ version ++ ") not found.")), false⟩
    else if actual_checksum ≠ expected_checksum.getD "" then
      ⟨.error (PyErr.valueError
        ("Checksum mismatch! Expected " ++ expected_checksum.getD "" ++ ", got " ++
          actual_checksum)), false⟩
    else ⟨.ok (), true⟩

/-- Numeric value of one hex digit, case-insensitively; `none` for a non-hex
character.  This is the spec-side reading of comparing two digests
"byte-for-byte as case-insensitive hex". -/
def hex_digit_value (c : Char) : Option Nat :=
  if '0' ≤ c ∧ c ≤ '9' then some (c.toNat - '0'.toNat)
  else if 'a' ≤ c ∧ c ≤ 'f' then some (c.toNat - 'a'.toNat + 10)
  else if 'A' ≤ c ∧ c ≤ 'F' then some (c.toNat - 'A'.toNat + 10)
  else none

/-- Two digest strings are equal byte-for-byte as case-insensitive hex. -/
def hex_equiv (s t : String) : Bool :=
  s.data.map hex_digit_value == t.data.map hex_digit_value

/-- Result of `extract_archive`: Python-level outcome plus archive presence. -/
structure ExtractResult where
  result : Except PyErr Unit
  archive_on_disk : Bool

/-- install.py lines 109-123, `extract_archive`: extraction may fail
(`extract_ok` input models the zipfile/tarfile outcome), and the `finally`
block (lines 120-123) unlinks the archive on every path. -/
def extract_archive (extract_ok : Bool) : ExtractResult :=
  let result : Except PyErr Unit :=
    if extract_ok then .ok () else .error PyErr.extractionError
  ⟨result, false⟩

/-- Outcome of `subprocess.run([binary, "--help"], check=True, timeout=10)`
at install.py lines 141-147. -/
inductive RunOutcome where
  | completed (returncode : Int)
  | fileNotFoundError
  | permissionError
  | timeoutExpired
deriving DecidableEq, Repr

/-- The RuntimeError message raised at install.py lines 154-159. -/
def usability_error_msg (binary_path : String) : String :=
  "The downloaded binary at " ++ binary_path ++ " could not be executed. " ++
  "This can mean a corrupted download or an incorrect binary for your OS/architecture. " ++
  "The invalid binary has been removed. Please try running the installation again. " ++
  "Run: download_golang_executable"

/-- Result of `verify_binary_usability`: Python-level outcome plus whether the
binary file is still on disk afterwards. -/
structure UsabilityResult where
  result : Except PyErr Unit
  binary_on_disk : Bool

/-- install.py lines 133-159, `verify_binary_usability`: `check=True` raises
`CalledProcessError` on a non-zero exit code; that, `FileNotFoundError`,
`PermissionError` and `TimeoutExpired` are all caught, the binary is unlinked,
and a `RuntimeError` is raised.  On a zero exit the binary is left alone. -/
def verify_binary_usability (binary_path : String) (binary_on_disk : Bool)
    (run_outcome : RunOutcome) : UsabilityResult :=
  match run_outcome with
  | .completed returncode =>
    if returncode ≠ 0 then
      ⟨.error (PyErr.runtimeError (usability_error_msg binary_path)), false⟩
    else ⟨.ok (), binary_on_disk⟩
  | _ => ⟨.error (PyErr.runtimeError (usability_error_msg binary_path)), false⟩

/-- Result of `install_binary`: Python-level outcome plus archive presence. -/
structure InstallResult where
  result : Except PyErr Unit
  archive_on_disk : Bool

/-- install.py lines 162-187, `install_binary`: resolve the platform, build the
archive name, then download+verify, extract, chmod, smoke-test.  The binary
path string is `bin_dir / binary_name`; `ensure_binary_is_executable`
(lines 126-131) performs no archive or binary deletion and cannot raise in this
model, so it contributes nothing to the tracked state. -/
def install_binary (os_platform arch : String) (manifest : Manifest)
    (download_ok : Bool) (actual_checksum : String) (extract_ok : Bool)
    (run_outcome : RunOutcome) (bin_dir : String) : InstallResult :=
  match get_platform_details os_platform arch with
  | .error e => ⟨.error e, false⟩
  | .ok details =>
    let version := TEST_SERVER_VERSION
    let archive_name :=
      PROJECT_NAME ++ "_" ++ details.go_os ++ "_" ++ details.go_arch ++ details.archive_extension
    let dv := download_and_verify manifest download_ok actual_checksum version archive_name
    match dv.result with
    | .error e => ⟨.error e, dv.archive_on_disk⟩
    | .ok _ =>
      let ex := extract_archive extract_ok
      match ex.result with
      | .error e => ⟨.error e, ex.archive_on_disk⟩
      | .ok _ =>
        let binary_path := bin_dir ++ "/" ++ details.binary_name
        let vu := verify_binary_usability binary_path true run_outcome
        ⟨vu.result, ex.archive_on_disk⟩

/-- Trace of one `_health_check` call (test_server_wrapper.py lines 62-75):
how many probe attempts ran, the argument of each `time.sleep`, in order, and
the Python-level outcome (`.ok` for an early `return`, `TimeoutError` at
line 75 otherwise). -/
structure HCResult where
  attempts : Nat
  sleeps : List ℚ
  result : Except PyErr Unit

/-- The TimeoutError message at test_server_wrapper.py line 75. -/
def hc_timeout_msg (url : String) (retries : Nat) : String :=
  "Health check failed for " ++ url ++ " after " ++ toString retries ++ " retries."

/-- The `for i in range(retries)` loop of `_health_check`, one probe per
iteration: a successful probe returns at once; a failed probe sleeps
`delay_sec * 2 ** i` (line 72-73) and continues — also on the last iteration.
`i` is the current loop index, the second `Nat` the remaining iterations. -/
def health_check_loop (url : String) (probe : Nat → Bool) (delay_sec : ℚ)
    (retries : Nat) : Nat → Nat → HCResult
  | _, 0 => ⟨0, [], .error (PyErr.timeoutError (hc_timeout_msg url retries))⟩
  | i, fuel + 1 =>
    if probe i then ⟨1, [], .ok ()⟩
    else
      let r := health_check_loop url probe delay_sec retries (i + 1) fuel
      ⟨r.attempts + 1, delay_sec * 2 ^ i :: r.sleeps, r.result⟩

/-- test_server_wrapper.py lines 62-75, `TestServer._health_check`; the probe
outcome of attempt `i` (request within its 1-second timeout answered by a
2xx/3xx status, so that `raise_for_status` does not raise) is the input
`probe i`.  Defaults: `retries = 5`, `delay_sec = 0.1`. -/
def _health_check (url : String) (probe : Nat → Bool)
    (retries : Nat := 5) (delay_sec : ℚ := 1 / 10) : HCResult :=
  health_check_loop url probe delay_sec retries 0 retries

/-- One entry of the `endpoints` list of the config file, as read by `start()`
(test_server_wrapper.py lines 115-125); each field is `some` when the key is
present in the YAML mapping. -/
structure Endpoint where
  health : Option String
  source_port : Option Nat
deriving DecidableEq, Repr

/-- The parsed config document: `endpoints` is `some` when the key is present. -/
structure Config where
  endpoints : Option (List Endpoint)
deriving DecidableEq, Repr

/-- Outcome of `open(self.config_path)` + `yaml.safe_load` at
test_server_wrapper.py lines 112-113.  `parsed none` is the YAML null document
(empty file): `yaml.safe_load` returns `None`. -/
inductive ConfigRead where
  | fileNotFound
  | parseError
  | parsed (doc : Option Config)

/-- The health-check portion of `start()` (test_server_wrapper.py
lines 115-125): walk the endpoints in order and, for each one that has both a
`health` and a `source_port` key, run `_health_check` with its defaults;
`probe ep i` is the outcome of attempt `i` against endpoint number `ep`. -/
def run_health_checks (probe : Nat → Nat → Bool) : Nat → List Endpoint → Except PyErr Unit
  | _, [] => .ok ()
  | idx, ep :: rest =>
    if ep.health.isSome && ep.source_port.isSome then
      match (_health_check ("http://localhost:" ++ toString (ep.source_port.getD 0) ++
          (ep.health.getD "")) (probe idx)).result with
      | .ok _ => run_health_checks probe (idx + 1) rest
      | .error e => .error e
    else run_health_checks probe (idx + 1) rest

/-- Inputs of one `start()` call: whether the binary file exists
(`_get_binary_path`, lines 39-52), the config-read outcome, and the health
probe outcomes. -/
structure StartEnv where
  binary_exists : Bool
  config_read : ConfigRead
  probe : Nat → Nat → Bool

/-- Observable effects of one `start()` call: whether `subprocess.Popen` ran,
whether `self.stop()` was called before the error propagated, and the
Python-level outcome. -/
structure StartResult where
  spawned : Bool
  stop_called : Bool
  result : Except PyErr Unit

/-- test_server_wrapper.py lines 77-133, `TestServer.start`:
`_get_binary_path` raises `FileNotFoundError` before the spawn; after the
spawn, the config is read and parsed inside a `try` whose handlers
(lines 126-133) call `self.stop()` and re-raise.  the membership test of `endpoints` in the config
raises `TypeError` when `yaml.safe_load` returned `None`; a missing or falsy
(empty) `endpoints` value skips health checking. -/
def TestServer.start (env : StartEnv) : StartResult :=
  if !env.binary_exists then ⟨false, false, .error PyErr.fileNotFoundError⟩
  else
    match env.config_read with
    | .fileNotFound => ⟨true, true, .error PyErr.fileNotFoundError⟩
    | .parseError => ⟨true, true, .error PyErr.yamlError⟩
    | .parsed none =>
      ⟨true, true, .error (PyErr.typeError "argument of type NoneType is not iterable")⟩
    | .parsed (some cfg) =>
      match cfg.endpoints with
      | none => ⟨true, false, .ok ()⟩
      | some eps =>
        if eps.isEmpty then ⟨true, false, .ok ()⟩
        else
          match run_health_checks env.probe 0 eps with
          | .ok _ => ⟨true, false, .ok ()⟩
          | .error e => ⟨true, true, .error e⟩

/-- Process signals sent by `stop()`. -/
inductive Sig where
  | sigterm
  | sigkill
deriving DecidableEq, Repr

/-- The child process as `stop()` observes it: `running` is whether
`self.process.poll()` is `None`, and `responds_to_term` whether the process
exits within `teardown_timeout` after SIGTERM. -/
structure ProcState where
  running : Bool
  responds_to_term : Bool
deriving DecidableEq, Repr

/-- A supervisor handle at the time `stop()` is called: `process` is `None`
before any `start()`, and the thread fields record whether the two reader
threads were created (both are set by `start()`, lines 100-107). -/
structure Handle where
  process : Option ProcState
  stdout_thread : Bool
  stderr_thread : Bool
deriving DecidableEq, Repr

/-- Observable effects of one `stop()` call: the handle afterwards, the
signals sent, in order, and which reader threads were joined. -/
structure StopResult where
  handle : Handle
  signals : List Sig
  joined_stdout : Bool
  joined_stderr : Bool
deriving DecidableEq, Repr

/-- test_server_wrapper.py lines 135-156, `TestServer.stop`: an unset process
or a non-`None` `poll()` returns early (lines 137-139); otherwise `terminate()`
is sent, `wait(timeout)` escalates to `kill()` + `wait()` on
`TimeoutExpired`, and then each existing reader thread is joined
(lines 152-156). -/
def TestServer.stop (h : Handle) : StopResult :=
  match h.process with
  | none => ⟨h, [], false, false⟩
  | some p =>
    if !p.running then ⟨h, [], false, false⟩
    else
      let signals := if p.responds_to_term then [Sig.sigterm] else [Sig.sigterm, Sig.sigkill]
      ⟨{ h with process := some { p with running := false } }, signals,
        h.stdout_thread, h.stderr_thread⟩

/-! ## Platform resolver (C6) -/

/-- Unfolding of `get_platform_details` into its branch structure. -/
theorem gpd_def (os arch : String) : get_platform_details os arch =
    if startswith os "darwin" = true then arch_branch "Darwin" ".tar.gz" arch PROJECT_NAME
    else if startswith os "linux" = true then arch_branch "Linux" ".tar.gz" arch PROJECT_NAME
    else if startswith os "win32" = true then
      arch_branch "Windows" ".zip" arch (PROJECT_NAME ++ ".exe")
    else .error (PyErr.osError ("Unsupported platform: " ++ os)) := by
  unfold get_platform_details arch_branch
  split <;> simp [bind, Except.bind, pure, Except.pure, throw, throwThe, MonadExcept.throw]

/-- No string starts with two incomparable prefixes at once. -/
theorem startswith_disjoint (s p q : String) (hpq : ¬ p.data <+: q.data)
    (hqp : ¬ q.data <+: p.data) :
    ¬(startswith s p = true ∧ startswith s q = true) := by
  rintro ⟨h1, h2⟩
  rw [startswith, List.isPrefixOf_iff_prefix] at h1 h2
  rcases List.prefix_or_prefix_of_prefix h1 h2 with h | h
  exacts [hpq h, hqp h]

theorem no_darwin_linux (s : String) :
    ¬(startswith s "darwin" = true ∧ startswith s "linux" = true) :=
  startswith_disjoint s _ _ (by decide) (by decide)

theorem no_darwin_win32 (s : String) :
    ¬(startswith s "darwin" = true ∧ startswith s "win32" = true) :=
  startswith_disjoint s _ _ (by decide) (by decide)

theorem no_linux_win32 (s : String) :
    ¬(startswith s "linux" = true ∧ startswith s "win32" = true) :=
  startswith_disjoint s _ _ (by decide) (by decide)

/-- A successfully resolved darwin or linux platform gets suffix `.tar.gz`. -/
theorem gpd_ok_tar (os arch : String) (d : PlatformDetails)
    (h : get_platform_details os arch = .ok d)
    (hos : startswith os "darwin" = true ∨ startswith os "linux" = true) :
    d.archive_extension = ".tar.gz" := by
  have hdw := no_darwin_win32 os
  have hlw := no_linux_win32 os
  rw [gpd_def] at h
  unfold arch_branch at h
  split_ifs at h with hd hl hw ha1 ha2 <;>
    first
      | (simp only [Except.ok.injEq] at h; subst h; simp_all; done)
      | (simp_all; done)

/-- A successfully resolved win32 platform gets suffix `.zip` and an `.exe`
binary name. -/
theorem gpd_ok_zip (os arch : String) (d : PlatformDetails)
    (h : get_platform_details os arch = .ok d)
    (hos : startswith os "win32" = true) :
    d.archive_extension = ".zip" ∧ d.binary_name = PROJECT_NAME ++ ".exe" := by
  have hdw := no_darwin_win32 os
  have hlw := no_linux_win32 os
  rw [gpd_def] at h
  unfold arch_branch at h
  split_ifs at h with hd hl hw ha1 ha2 <;>
    first
      | (simp only [Except.ok.injEq] at h; subst h; simp_all; done)
      | (simp_all; done)

/-- The x86 aliases resolve to arch tag `x86_64`. -/
theorem gpd_ok_x86 (os arch : String) (d : PlatformDetails)
    (h : get_platform_details os arch = .ok d)
    (ha : arch = "x86_64" ∨ arch = "AMD64") :
    d.go_arch = "x86_64" := by
  rw [gpd_def] at h
  unfold arch_branch at h
  split_ifs at h with hd hl hw ha1 ha2 <;>
    first
      | (simp only [Except.ok.injEq] at h; subst h; simp_all; done)
      | (simp_all; done)
      | (rcases ha with rfl | rfl <;> simp_all)

/-- The ARM aliases resolve to arch tag `arm64`. -/
theorem gpd_ok_arm (os arch : String) (d : PlatformDetails)
    (h : get_platform_details os arch = .ok d)
    (ha : arch = "arm64" ∨ arch = "aarch64") :
    d.go_arch = "arm64" := by
  rw [gpd_def] at h
  unfold arch_branch at h
  split_ifs at h with hd hl hw ha1 ha2 <;>
    first
      | (simp only [Except.ok.injEq] at h; subst h; simp_all; done)
      | (simp_all; done)
      | (rcases ha with rfl | rfl <;> simp_all)

/-- An unsupported OS fails with the platform `OSError`. -/
theorem gpd_unsupported_os (os arch : String)
    (h1 : ¬ startswith os "darwin" = true) (h2 : ¬ startswith os "linux" = true)
    (h3 : ¬ startswith os "win32" = true) :
    get_platform_details os arch = .error (PyErr.osError ("Unsupported platform: " ++ os)) := by
  rw [gpd_def]
  simp_all

/-- A supported OS with an unsupported architecture fails with the
architecture `OSError`. -/
theorem gpd_unsupported_arch (os arch : String)
    (hos : startswith os "darwin" = true ∨ startswith os "linux" = true ∨
      startswith os "win32" = true)
    (h1 : ¬ (arch = "x86_64" ∨ arch = "AMD64")) (h2 : ¬ (arch = "arm64" ∨ arch = "aarch64")) :
    get_platform_details os arch =
      .error (PyErr.osError ("Unsupported architecture: " ++ arch)) := by
  rw [gpd_def]
  unfold arch_branch
  split_ifs <;> simp_all

/-- Every supported (OS, arch) pair resolves successfully. -/
theorem gpd_supported_ok (os arch : String)
    (hos : startswith os "darwin" = true ∨ startswith os "linux" = true ∨
      startswith os "win32" = true)
    (ha : (arch = "x86_64" ∨ arch = "AMD64") ∨ (arch = "arm64" ∨ arch = "aarch64")) :
    ∃ d, get_platform_details os arch = .ok d := by
  rw [gpd_def]
  unfold arch_branch
  split_ifs <;> simp_all <;> tauto

/-- C6: the platform resolver returns archive suffix `.tar.gz` for darwin and
linux and `.zip` (with an `.exe` binary filename) for win32; architecture
aliases `x86_64`/`AMD64` map to `x86_64` and `arm64`/`aarch64` to `arm64`; any
other OS or architecture raises an unsupported-platform `OSError`, and every
supported pair resolves, its archive suffix matching its OS family exactly. -/
theorem C6_platform_resolver (os arch : String) :
    (∀ d, get_platform_details os arch = .ok d →
        (((startswith os "darwin" = true) ∨ (startswith os "linux" = true)) →
          d.archive_extension = ".tar.gz")
      ∧ ((startswith os "win32" = true) →
          d.archive_extension = ".zip" ∧ d.binary_name = PROJECT_NAME ++ ".exe")
      ∧ ((arch = "x86_64" ∨ arch = "AMD64") → d.go_arch = "x86_64")
      ∧ ((arch = "arm64" ∨ arch = "aarch64") → d.go_arch = "arm64"))
  ∧ (¬ (startswith os "darwin" = true) ∧ ¬ (startswith os "linux" = true) ∧
      ¬ (startswith os "win32" = true) →
      get_platform_details os arch = .error (PyErr.osError ("Unsupported platform: " ++ os)))
  ∧ (((startswith os "darwin" = true) ∨ (startswith os "linux" = true) ∨
      (startswith os "win32" = true)) →
      ¬ (arch = "x86_64" ∨ arch = "AMD64") → ¬ (arch = "arm64" ∨ arch = "aarch64") →
      get_platform_details os arch = .error (PyErr.osError ("Unsupported architecture: " ++ arch)))
  ∧ (((startswith os "darwin" = true) ∨ (startswith os "linux" = true) ∨
      (startswith os "win32" = true)) →
      ((arch = "x86_64" ∨ arch = "AMD64") ∨ (arch = "arm64" ∨ arch = "aarch64")) →
      ∃ d, get_platform_details os arch = .ok d) :=
  ⟨fun d h => ⟨gpd_ok_tar os arch d h, fun hw => gpd_ok_zip os arch d h hw,
      gpd_ok_x86 os arch d h, gpd_ok_arm os arch d h⟩,
    fun ⟨h1, h2, h3⟩ => gpd_unsupported_os os arch h1 h2 h3,
    fun hos => gpd_unsupported_arch os arch hos,
    fun hos ha => gpd_supported_ok os arch hos ha⟩

/-- C6 witness: the resolver evaluated on concrete supported and unsupported
inputs, via `C6_platform_resolver`. -/
theorem C6_platform_resolver_witness :
    get_platform_details "plan9" "x86_64" =
      .error (PyErr.osError "Unsupported platform: plan9")
  ∧ get_platform_details "darwin" "mips" =
      .error (PyErr.osError "Unsupported architecture: mips")
  ∧ (∃ d, get_platform_details "win32" "arm64" = .ok d) :=
  ⟨(C6_platform_resolver "plan9" "x86_64").2.1 ⟨by decide, by decide, by decide⟩,
    (C6_platform_resolver "darwin" "mips").2.2.1 (Or.inl (by decide)) (by decide) (by decide),
    (C6_platform_resolver "win32" "arm64").2.2.2 (Or.inr (Or.inr (by decide)))
      (Or.inr (Or.inl rfl))⟩

/-! ## Checksum verification (C1) -/

/-- Every error path of `download_and_verify` deletes the archive before the
error propagates. -/
theorem dv_error_no_archive (manifest : Manifest) (download_ok : Bool)
    (actual_checksum version archive_name : String) (e : PyErr)
    (h : (download_and_verify manifest download_ok actual_checksum version
      archive_name).result = .error e) :
    (download_and_verify manifest download_ok actual_checksum version
      archive_name).archive_on_disk = false := by
  unfold download_and_verify at h ⊢
  by_cases h1 : download_ok = true
  case neg => simp [h1]
  case pos =>
    simp only [h1] at h ⊢
    by_cases h2 : optStrFalsy (manifestLookup manifest version archive_name) = true
    · simp [h2]
    · simp only [h2] at h ⊢
      by_cases h3 : actual_checksum = (manifestLookup manifest version archive_name).getD ""
      · simp [h3] at h
      · simp [h3]

/-- C1 counterexample: the code compares the hex digests with Python string
inequality, which is case-sensitive.  the `hexdigest()` of `hashlib` is lowercase,
so a manifest entry holding the uppercase spelling of the correct digest —
equal to the computed digest as case-insensitive hex — is rejected with a
checksum-mismatch error instead of returning normally. -/
theorem C1_counterexample :
    hex_equiv "9f86d081884c7d659a2feaa0c55ad015a3bf4f1b2b0b822cd15d6c15b0f00a08"
      "9F86D081884C7D659A2FEAA0C55AD015A3BF4F1B2B0B822CD15D6C15B0F00A08" = true
  ∧ (download_and_verify
      [("v0.2.8", [("test-server_Linux_x86_64.tar.gz",
        "9F86D081884C7D659A2FEAA0C55AD015A3BF4F1B2B0B822CD15D6C15B0F00A08")])]
      true "9f86d081884c7d659a2feaa0c55ad015a3bf4f1b2b0b822cd15d6c15b0f00a08"
      "v0.2.8" "test-server_Linux_x86_64.tar.gz").result =
    .error (PyErr.valueError
      ("Checksum mismatch! Expected 9F86D081884C7D659A2FEAA0C55AD015A3BF4F1B2B0B822CD15D6C15B0F00A08" ++
        ", got 9f86d081884c7d659a2feaa0c55ad015a3bf4f1b2b0b822cd15d6c15b0f00a08")) :=
  ⟨by decide, by rfl⟩

/-- C1 (amended): after a successful download, `download_and_verify` compares
the computed lowercase hex digest against the manifest entry for
`(version, archive name)` by exact, case-sensitive string equality; a missing
(or empty) manifest entry raises the not-found `ValueError`, an unequal string
raises the mismatch `ValueError`, and an equal string returns normally. -/
theorem C1_checksum_comparison (manifest : Manifest)
    (actual_checksum version archive_name : String) :
    ((manifestLookup manifest version archive_name = none ∨
        manifestLookup manifest version archive_name = some "") →
      (download_and_verify manifest true actual_checksum version archive_name).result =
        .error (PyErr.valueError
          ("Checksum for " ++ archive_name ++ " (version " ++ version ++ ") not found.")))
  ∧ (∀ expected, manifestLookup manifest version archive_name = some expected →
      expected ≠ "" →
      ((actual_checksum = expected →
        (download_and_verify manifest true actual_checksum version archive_name).result =
          .ok ())
      ∧ (actual_checksum ≠ expected →
        (download_and_verify manifest true actual_checksum version archive_name).result =
          .error (PyErr.valueError
            ("Checksum mismatch! Expected " ++ expected ++ ", got " ++ actual_checksum))))) := by
  have hempty : ("" : String).isEmpty = true := rfl
  constructor
  · rintro (hm | hm) <;> simp [download_and_verify, hm, optStrFalsy, hempty]
  · intro expected hm hne
    have hemp : expected.isEmpty = false := by
      cases hx : expected.isEmpty
      · rfl
      · exact absurd ((String.isEmpty_iff expected).mp hx) hne
    constructor
    · rintro rfl
      simp [download_and_verify, hm, optStrFalsy, hemp]
    · intro hneq
      simp [download_and_verify, hm, optStrFalsy, hemp, hneq]

/-- C1 witness: the amended theorem applied at a concrete manifest, both on a
matching digest and on a mismatching one. -/
theorem C1_checksum_comparison_witness :
    (download_and_verify [("v0.2.8", [("a.tar.gz", "ab12")])] true "ab12"
      "v0.2.8" "a.tar.gz").result = .ok ()
  ∧ (download_and_verify [("v0.2.8", [("a.tar.gz", "ab12")])] true "cd34"
      "v0.2.8" "a.tar.gz").result =
      .error (PyErr.valueError "Checksum mismatch! Expected ab12, got cd34")
  ∧ (download_and_verify [("v0.2.8", [("a.tar.gz", "ab12")])] true "ab12"
      "v0.2.8" "missing.zip").result =
      .error (PyErr.valueError "Checksum for missing.zip (version v0.2.8) not found.") :=
  ⟨((C1_checksum_comparison [("v0.2.8", [("a.tar.gz", "ab12")])] "ab12"
        "v0.2.8" "a.tar.gz").2 "ab12" (by rfl) (by decide)).1 rfl,
    ((C1_checksum_comparison [("v0.2.8", [("a.tar.gz", "ab12")])] "cd34"
        "v0.2.8" "a.tar.gz").2 "ab12" (by rfl) (by decide)).2 (by decide),
    (C1_checksum_comparison [("v0.2.8", [("a.tar.gz", "ab12")])] "ab12"
        "v0.2.8" "missing.zip").1 (Or.inl (by rfl))⟩

/-! ## Archive cleanup across install_binary (C2) -/

/-- C2: on every outcome of `install_binary` — success, unsupported platform,
download failure, missing manifest entry, checksum mismatch, extraction
failure, or smoke-test failure — no archive file remains on disk when the
operation returns or its error propagates. -/
theorem C2_no_archive_left (os_platform arch : String) (manifest : Manifest)
    (download_ok : Bool) (actual_checksum : String) (extract_ok : Bool)
    (run_outcome : RunOutcome) (bin_dir : String) :
    (install_binary os_platform arch manifest download_ok actual_checksum extract_ok
      run_outcome bin_dir).archive_on_disk = false := by
  unfold install_binary
  rcases get_platform_details os_platform arch with e | details
  · rfl
  · rcases hdv : (download_and_verify manifest download_ok actual_checksum
        TEST_SERVER_VERSION
        (PROJECT_NAME ++ "_" ++ details.go_os ++ "_" ++ details.go_arch ++
          details.archive_extension)).result with e | u
    · simp only [hdv]
      exact dv_error_no_archive _ _ _ _ _ _ hdv
    · simp only [hdv, extract_archive]
      split <;> rfl

/-! ## Binary smoke test (C5) -/

/-- C5: any failing smoke-test invocation — non-zero exit, missing binary,
permission error, or expired timeout — deletes the binary and raises the
`RuntimeError`; a zero exit within the timeout leaves the binary in place and
raises nothing. -/
theorem C5_smoke_test (binary_path : String) (binary_on_disk : Bool)
    (run_outcome : RunOutcome) :
    (run_outcome ≠ RunOutcome.completed 0 →
      verify_binary_usability binary_path binary_on_disk run_outcome =
        ⟨.error (PyErr.runtimeError (usability_error_msg binary_path)), false⟩)
  ∧ (run_outcome = RunOutcome.completed 0 →
      verify_binary_usability binary_path binary_on_disk run_outcome =
        ⟨.ok (), binary_on_disk⟩) := by
  constructor
  · intro hne
    match run_outcome with
    | .completed rc =>
      have hrc : rc ≠ 0 := fun h => hne (by rw [h])
      simp [verify_binary_usability, hrc]
    | .fileNotFoundError => rfl
    | .permissionError => rfl
    | .timeoutExpired => rfl
  · rintro rfl
    simp [verify_binary_usability]

/-- C5 witness: the smoke test evaluated on a non-zero exit and on a zero
exit, via `C5_smoke_test`. -/
theorem C5_smoke_test_witness :
    verify_binary_usability "bin/test-server" true (RunOutcome.completed 1) =
      ⟨.error (PyErr.runtimeError (usability_error_msg "bin/test-server")), false⟩
  ∧ verify_binary_usability "bin/test-server" true (RunOutcome.completed 0) =
      ⟨.ok (), true⟩ :=
  ⟨(C5_smoke_test "bin/test-server" true (RunOutcome.completed 1)).1 (by decide),
    (C5_smoke_test "bin/test-server" true (RunOutcome.completed 0)).2 rfl⟩

/-! ## Health check backoff (C3, C10) -/

/-- Shifting the start index of the backoff-delay list by one. -/
theorem backoff_range_shift (δ : ℚ) (i n : Nat) :
    (List.range (n + 1)).map (fun j => δ * 2 ^ (i + j)) =
      δ * 2 ^ i :: (List.range n).map (fun j => δ * 2 ^ (i + 1 + j)) := by
  rw [List.range_succ_eq_map, List.map_cons, List.map_map]
  refine congrArg₂ _ (by rw [Nat.add_zero]) (List.map_congr_left ?_)
  intro j hj
  have : i + (j + 1) = i + 1 + j := by omega
  simp [Function.comp, this]

/-- If every probe up to the remaining fuel fails, the loop runs out of fuel:
one attempt and one sleep per iteration, then the `TimeoutError`. -/
theorem hc_loop_all_fail (url : String) (probe : Nat → Bool) (δ : ℚ) (retries : Nat) :
    ∀ n i, (∀ j, j < n → probe (i + j) = false) →
    health_check_loop url probe δ retries i n =
      ⟨n, (List.range n).map (fun j => δ * 2 ^ (i + j)),
        .error (PyErr.timeoutError (hc_timeout_msg url retries))⟩ := by
  intro n
  induction n with
  | zero => intro i h; rfl
  | succ n ih =>
    intro i h
    have h0 : probe i = false := by simpa using h 0 (Nat.succ_pos n)
    have hrest : ∀ j, j < n → probe (i + 1 + j) = false := by
      intro j hj
      have := h (j + 1) (by omega)
      simpa [show i + (j + 1) = i + 1 + j by omega] using this
    rw [health_check_loop, h0]
    simp only [Bool.false_eq_true, if_false, ih (i + 1) hrest, backoff_range_shift]

/-- If the first success is at offset `k < n`, the loop returns after `k + 1`
attempts, having slept only for the `k` failed attempts before it. -/
theorem hc_loop_first_success (url : String) (probe : Nat → Bool) (δ : ℚ) (retries : Nat) :
    ∀ k n i, k < n → probe (i + k) = true → (∀ j, j < k → probe (i + j) = false) →
    health_check_loop url probe δ retries i n =
      ⟨k + 1, (List.range k).map (fun j => δ * 2 ^ (i + j)), .ok ()⟩ := by
  intro k
  induction k with
  | zero =>
    intro n i hk hs _
    obtain ⟨m, rfl⟩ := Nat.exists_eq_succ_of_ne_zero (Nat.pos_iff_ne_zero.mp hk)
    rw [health_check_loop, show probe i = true by simpa using hs]
    rfl
  | succ k ih =>
    intro n i hk hs hf
    obtain ⟨m, rfl⟩ := Nat.exists_eq_succ_of_ne_zero (show n ≠ 0 by omega)
    have h0 : probe i = false := by simpa using hf 0 (Nat.succ_pos k)
    have hs1 : probe (i + 1 + k) = true := by
      simpa [show i + (k + 1) = i + 1 + k by omega] using hs
    have hf1 : ∀ j, j < k → probe (i + 1 + j) = false := by
      intro j hj
      simpa [show i + (j + 1) = i + 1 + j by omega] using hf (j + 1) (by omega)
    rw [health_check_loop, h0]
    simp only [Bool.false_eq_true, if_false,
      ih m (i + 1) (by omega) hs1 hf1, backoff_range_shift]

/-- The backoff delays are strictly increasing when the base delay is
positive. -/
theorem backoff_pairwise (δ : ℚ) (hδ : 0 < δ) (n : Nat) :
    List.Pairwise (· < ·) ((List.range n).map (fun i => δ * 2 ^ i)) :=
  (List.pairwise_lt_range n).map _
    (fun _ _ hab => mul_lt_mul_of_pos_left (pow_lt_pow_right₀ one_lt_two hab) hδ)

/-- C3: when every probe of an endpoint fails, `_health_check` performs
exactly `retries` attempts (default 5), sleeping `delay_sec * 2 ^ i` after
attempt `i` — so the delays between consecutive attempts are strictly
increasing for a positive base delay — and then raises the `TimeoutError`;
and when the first successful probe is attempt `k`, it returns normally after
`k + 1` attempts, with no further attempt. -/
theorem C3_health_check_retries (url : String) (probe : Nat → Bool) (retries : Nat)
    (δ : ℚ) (hδ : 0 < δ) :
    ((∀ i, i < retries → probe i = false) →
      (_health_check url probe retries δ).attempts = retries
      ∧ (_health_check url probe retries δ).result =
          .error (PyErr.timeoutError (hc_timeout_msg url retries))
      ∧ (_health_check url probe retries δ).sleeps =
          (List.range retries).map (fun i => δ * 2 ^ i)
      ∧ List.Pairwise (· < ·) (_health_check url probe retries δ).sleeps)
  ∧ (∀ k, k < retries → probe k = true → (∀ j, j < k → probe j = false) →
      (_health_check url probe retries δ).attempts = k + 1
      ∧ (_health_check url probe retries δ).result = .ok ()) := by
  constructor
  · intro hfail
    have h := hc_loop_all_fail url probe δ retries retries 0
      (fun j hj => by simpa using hfail j hj)
    unfold _health_check
    rw [h]
    exact ⟨rfl, rfl, by simp, by simpa using backoff_pairwise δ hδ retries⟩
  · intro k hk hs hf
    have h := hc_loop_first_success url probe δ retries k retries 0 hk
      (by simpa using hs) (fun j hj => by simpa using hf j hj)
    unfold _health_check
    rw [h]
    exact ⟨rfl, rfl⟩

/-- C3 witness: five failing probes with the default retry count and delay,
and a probe succeeding on the third attempt, via `C3_health_check_retries`. -/
theorem C3_health_check_retries_witness :
    ((_health_check "http://localhost:17080/health" (fun _ => false)).attempts = 5
      ∧ (_health_check "http://localhost:17080/health" (fun _ => false)).result =
          .error (PyErr.timeoutError
            (hc_timeout_msg "http://localhost:17080/health" 5))
      ∧ List.Pairwise (· < ·)
          (_health_check "http://localhost:17080/health" (fun _ => false)).sleeps)
  ∧ ((_health_check "http://localhost:17080/health" (fun i => Nat.ble 2 i)).attempts = 3
      ∧ (_health_check "http://localhost:17080/health" (fun i => Nat.ble 2 i)).result =
          .ok ()) := by
  have h1 := (C3_health_check_retries "http://localhost:17080/health" (fun _ => false)
    5 (1 / 10) (by norm_num)).1 (fun i _ => rfl)
  have h2 := (C3_health_check_retries "http://localhost:17080/health" (fun i => Nat.ble 2 i)
    5 (1 / 10) (by norm_num)).2 2 (by omega) (by rfl)
    (fun j hj => by
      match j with
      | 0 => rfl
      | 1 => rfl
      | j + 2 => exact absurd hj (by omega))
  exact ⟨⟨h1.1, h1.2.1, h1.2.2.2⟩, h2⟩

/-- List-sum form of a sum over `Finset.range`. -/
theorem sum_map_range (f : Nat → ℚ) (n : Nat) :
    ((List.range n).map f).sum = ∑ i in Finset.range n, f i := by
  induction n with
  | zero => rfl
  | succ n ih =>
    rw [List.range_succ, List.map_append, List.sum_append, Finset.sum_range_succ, ih]
    simp

/-- C10: when every probe fails, the loop sleeps after the final attempt as
well as between attempts — `retries` sleeps in total for `retries` attempts —
so the total slept delay is the sum of `delay_sec * 2 ^ i` for `i` from 0 to
`retries - 1`, and the trailing sleep, which precedes no further attempt, is
`delay_sec * 2 ^ (retries - 1)`. -/
theorem C10_trailing_sleep (url : String) (probe : Nat → Bool) (retries : Nat) (δ : ℚ)
    (hfail : ∀ i, i < retries → probe i = false) :
    (_health_check url probe retries δ).attempts = retries
  ∧ (_health_check url probe retries δ).sleeps.length = retries
  ∧ (_health_check url probe retries δ).sleeps.sum =
      ∑ i in Finset.range retries, δ * 2 ^ i
  ∧ (0 < retries →
      (_health_check url probe retries δ).sleeps.getLast? =
        some (δ * 2 ^ (retries - 1))) := by
  have h := hc_loop_all_fail url probe δ retries retries 0
    (fun j hj => by simpa using hfail j hj)
  unfold _health_check
  rw [h]
  refine ⟨rfl, by simp, ?_, ?_⟩
  · simp only [Nat.zero_add]
    exact sum_map_range _ retries
  · intro hr
    obtain ⟨m, rfl⟩ := Nat.exists_eq_succ_of_ne_zero (Nat.pos_iff_ne_zero.mp hr)
    rw [List.range_succ, List.map_append]
    simp

/-- C10 witness: all five default probes failing, via `C10_trailing_sleep`. -/
theorem C10_trailing_sleep_witness :
    (_health_check "http://localhost:17080/health" (fun _ => false)).sleeps.length = 5
  ∧ (_health_check "http://localhost:17080/health" (fun _ => false)).sleeps.sum =
      ∑ i in Finset.range 5, (1 / 10 : ℚ) * 2 ^ i
  ∧ (_health_check "http://localhost:17080/health" (fun _ => false)).sleeps.getLast? =
      some ((1 / 10 : ℚ) * 2 ^ 4) := by
  have h := C10_trailing_sleep "http://localhost:17080/health" (fun _ => false)
    5 (1 / 10) (fun i _ => rfl)
  exact ⟨h.2.1, h.2.2.1, h.2.2.2 (by omega)⟩

/-! ## Supervisor start (C4, C9) -/

/-- Every `start()` call either fails before the spawn, returns normally, or
has called `stop()` on its way out. -/
theorem start_cases (env : StartEnv) :
    (TestServer.start env).spawned = false ∨ (TestServer.start env).result = .ok () ∨
      (TestServer.start env).stop_called = true := by
  rcases env with ⟨be, cr, probe⟩
  cases be
  · left; rfl
  · cases cr with
    | fileNotFound => right; right; rfl
    | parseError => right; right; rfl
    | parsed doc =>
      cases doc with
      | none => right; right; rfl
      | some cfg =>
        rcases cfg with ⟨eps⟩
        cases eps with
        | none => right; left; rfl
        | some l =>
          by_cases he : l.isEmpty = true
          · right; left; simp [TestServer.start, he]
          · rcases hr : run_health_checks probe 0 l with u | e <;>
              simp [TestServer.start, he, hr]

/-- C4: whenever `start()` fails after the child process has been spawned —
missing config file, unparsable config, the `TypeError` on a null config, or
an exhausted health check — `stop()` is called on the just-spawned process
before the error reaches the caller. -/
theorem C4_start_failure_stops (env : StartEnv) (e : PyErr)
    (hspawn : (TestServer.start env).spawned = true)
    (herr : (TestServer.start env).result = .error e) :
    (TestServer.start env).stop_called = true := by
  rcases start_cases env with h | h | h
  · rw [hspawn] at h; exact absurd h (by simp)
  · rw [herr] at h; exact absurd h (by simp)
  · exact h

/-- C4 witness: a spawned process whose config file is missing, via
`C4_start_failure_stops`. -/
theorem C4_start_failure_stops_witness :
    (TestServer.start ⟨true, ConfigRead.fileNotFound, fun _ _ => false⟩).stop_called
      = true :=
  C4_start_failure_stops ⟨true, ConfigRead.fileNotFound, fun _ _ => false⟩
    PyErr.fileNotFoundError rfl rfl

/-- C9: when the config file exists but parses to the YAML null document,
`start()` does not treat the server as ready: the membership test
the membership test of `endpoints` in the config raises a `TypeError`, the handler stops the
just-spawned process, and the error propagates. -/
theorem C9_null_config (env : StartEnv)
    (hbin : env.binary_exists = true)
    (hcfg : env.config_read = ConfigRead.parsed none) :
    (TestServer.start env).spawned = true
  ∧ (TestServer.start env).stop_called = true
  ∧ (TestServer.start env).result =
      .error (PyErr.typeError "argument of type NoneType is not iterable") := by
  rcases env with ⟨be, cr, probe⟩
  cases hbin
  cases hcfg
  exact ⟨rfl, rfl, rfl⟩

/-- C9 witness: a concrete environment with a null config document, via
`C9_null_config`. -/
theorem C9_null_config_witness :
    (TestServer.start ⟨true, ConfigRead.parsed none, fun _ _ => false⟩).spawned = true
  ∧ (TestServer.start ⟨true, ConfigRead.parsed none, fun _ _ => false⟩).stop_called = true
  ∧ (TestServer.start ⟨true, ConfigRead.parsed none, fun _ _ => false⟩).result =
      .error (PyErr.typeError "argument of type NoneType is not iterable") :=
  C9_null_config ⟨true, ConfigRead.parsed none, fun _ _ => false⟩ rfl rfl

/-! ## Supervisor stop (C7, C8) -/

/-- C7: `stop()` on a never-started or already-exited handle is a no-op that
sends no signal; after any `stop()` the process is no longer running, so a
second consecutive `stop()` sends nothing, and two consecutive `stop()` calls
deliver the graceful SIGTERM at most once. -/
theorem C7_stop_idempotent (h : Handle) :
    (h.process = none → TestServer.stop h = ⟨h, [], false, false⟩)
  ∧ (∀ p, h.process = some p → p.running = false →
      TestServer.stop h = ⟨h, [], false, false⟩)
  ∧ (TestServer.stop (TestServer.stop h).handle).signals = []
  ∧ (TestServer.stop h).signals.count Sig.sigterm +
      (TestServer.stop (TestServer.stop h).handle).signals.count Sig.sigterm ≤ 1 := by
  rcases h with ⟨proc, so, se⟩
  rcases proc with _ | ⟨running, resp⟩
  · refine ⟨fun _ => rfl, ?_, rfl, by simp [TestServer.stop]⟩
    intro p hp
    exact absurd hp (by simp)
  · refine ⟨?_, ?_, ?_, ?_⟩
    · intro hp
      exact absurd hp (by simp)
    · intro p hp hr
      injection hp with hpe
      subst hpe
      cases hr
      rfl
    · cases running <;> cases resp <;> rfl
    · cases running <;> cases resp <;> simp [TestServer.stop]

/-- C7 witness: a never-started handle and an already-exited handle, via
`C7_stop_idempotent`. -/
theorem C7_stop_idempotent_witness :
    TestServer.stop ⟨none, false, false⟩ = ⟨⟨none, false, false⟩, [], false, false⟩
  ∧ TestServer.stop ⟨some ⟨false, true⟩, true, true⟩ =
      ⟨⟨some ⟨false, true⟩, true, true⟩, [], false, false⟩ :=
  ⟨(C7_stop_idempotent ⟨none, false, false⟩).1 rfl,
    (C7_stop_idempotent ⟨some ⟨false, true⟩, true, true⟩).2.1 ⟨false, true⟩ rfl rfl⟩

/-- C8 counterexample: on a started handle whose process has already exited
(both reader threads exist, `poll()` is not `None`), `stop()` takes the early
return at lines 137-139 and joins neither reader thread, contradicting the
claim that both threads are joined on every path, including the
already-exited one. -/
theorem C8_counterexample :
    (TestServer.stop ⟨some ⟨false, true⟩, true, true⟩).joined_stdout = false
  ∧ (TestServer.stop ⟨some ⟨false, true⟩, true, true⟩).joined_stderr = false :=
  ⟨rfl, rfl⟩

/-- C8 (amended): on the `stop()` path where the process is still running,
every reader thread that exists is joined before `stop()` returns; on the
path where the process has already exited (and on a never-started handle),
`stop()` returns early without joining either reader thread. -/
theorem C8_joins_on_running_path (h : Handle) (p : ProcState)
    (hp : h.process = some p) :
    (p.running = true →
      (TestServer.stop h).joined_stdout = h.stdout_thread ∧
      (TestServer.stop h).joined_stderr = h.stderr_thread)
  ∧ (p.running = false →
      (TestServer.stop h).joined_stdout = false ∧
      (TestServer.stop h).joined_stderr = false) := by
  rcases h with ⟨proc, so, se⟩
  cases hp
  rcases p with ⟨running, resp⟩
  cases running <;> cases resp <;>
    refine ⟨fun hr => ?_, fun hr => ?_⟩ <;>
    first
      | exact absurd hr (by decide)
      | exact ⟨rfl, rfl⟩

/-- C8 witness: a started handle with a running process has both reader
threads joined, via `C8_joins_on_running_path`. -/
theorem C8_joins_on_running_path_witness :
    (TestServer.stop ⟨some ⟨true, true⟩, true, true⟩).joined_stdout = true
  ∧ (TestServer.stop ⟨some ⟨true, true⟩, true, true⟩).joined_stderr = true :=
  (C8_joins_on_running_path ⟨some ⟨true, true⟩, true, true⟩ ⟨true, true⟩ rfl).1 rfl

end TestServerSdk
